import Mathlib

/-!
# Verification of the rock-paper-scissors duel server

Shallow embedding of the server core (`Player.js`, `GameSession.js`,
`LobbyManager.js`, `InputValidator.js`, `rules.js`, `constants.js`) and
proofs of the behavioural claims about it.

Conventions of the embedding:
* JS objects become Lean structures; in-place mutation becomes functions
  returning the updated structure.
* JS numbers used as array indices are `Int` (they may be negative);
  counters are `Nat`.
* functions that would throw in JS (property access on `null`/`undefined`)
  return `Option`, with `none` standing for the thrown exception.
* `setTimeout` scheduling is reified as a list of `Deferred` values
  returned next to the emitted events.
-/

namespace RPS

/-- Card kinds, from `CardType` in `Deck.js`. -/
inductive CardType where
  | rock
  | paper
  | scissors
deriving DecidableEq, Repr

/-- A card: stable string identity plus a kind (the `color`/`index` fields of
`Deck.js` are derived display data and never read by the server core). -/
structure Card where
  id : String
  type : CardType
deriving DecidableEq, Repr

/-- `GAME_CONFIG.MAX_SWAPS_PER_GAME` from `constants.js`. -/
def MAX_SWAPS_PER_GAME : Nat := 3

/-- `GAME_CONFIG.CARDS_PER_PLAYER` from `constants.js`. -/
def CARDS_PER_PLAYER : Nat := 6

/-- `GAME_CONFIG.TOTAL_ROUNDS` from `constants.js`. -/
def TOTAL_ROUNDS : Nat := 6

/-- Per-participant mutable state, from the `Player` class constructor. -/
structure Player where
  id : String
  socketId : String
  name : String
  hand : List Card := []
  sequence : List Card := []
  sequenceSet : Bool := false
  swapsUsed : Nat := 0
  swappedThisRound : Bool := false
  score : Nat := 0
  disconnected : Bool := false
  disconnectedAt : Option Nat := none
  ready : Bool := false
deriving DecidableEq, Repr

/-- `Player.setSequence(sequence)`: the submitted JS array may contain
`null`/`undefined` entries, modelled as `none`; the function first filters
them out, then checks length and card-id set equality against `hand`.
Returns the updated player and the JS boolean result. -/
def Player.setSequence (p : Player) (seq : List (Option Card)) : Player × Bool :=
  if p.sequenceSet then (p, false)
  else
    let validSequence := seq.reduceOption
    if validSequence.length ≠ p.hand.length then (p, false)
    else
      let handSet := (p.hand.map Card.id).toFinset
      let seqSet := (validSequence.map Card.id).toFinset
      if handSet.card ≠ seqSet.card then (p, false)
      else if ¬ handSet ⊆ seqSet then (p, false)
      else ({ p with sequence := validSequence, sequenceSet := true }, true)

/-- `Player.canSwap()`. -/
def Player.canSwap (p : Player) : Bool :=
  p.swapsUsed < MAX_SWAPS_PER_GAME && !p.swappedThisRound

/-- `Player.getSwapsRemaining()`. -/
def Player.getSwapsRemaining (p : Player) : Nat :=
  MAX_SWAPS_PER_GAME - p.swapsUsed

/-- Exchange of two list positions, as the three JS assignments
`temp = seq[i]; seq[i] = seq[j]; seq[j] = temp` (identity out of bounds). -/
def listSwap {α : Type} (l : List α) (i j : Nat) : List α :=
  match l.get? i, l.get? j with
  | some a, some b => (l.set i b).set j a
  | _, _ => l

/-- `Player.swapCards(pos1, pos2)`: guards in source order (`canSwap`,
adjacency, bounds against `sequence.length`), then the exchange plus
counter/flag updates. -/
def Player.swapCards (p : Player) (pos1 pos2 : Int) : Player × Bool :=
  if ¬ p.canSwap then (p, false)
  else if (pos1 - pos2).natAbs ≠ 1 then (p, false)
  else if pos1 < 0 ∨ pos2 < 0 ∨ (p.sequence.length : Int) ≤ pos1 ∨
      (p.sequence.length : Int) ≤ pos2 then (p, false)
  else
    ({ p with
        sequence := listSwap p.sequence pos1.toNat pos2.toNat,
        swapsUsed := p.swapsUsed + 1,
        swappedThisRound := true }, true)

/-- `Player.resetRound()`. -/
def Player.resetRound (p : Player) : Player :=
  { p with swappedThisRound := false, ready := false }

/-- `Player.addScore(points)`. -/
def Player.addScore (p : Player) (points : Nat) : Player :=
  { p with score := p.score + points }

/-- `Player.getCardForRound(roundIndex)` (`null` for a missing index). -/
def Player.getCardForRound (p : Player) (roundIndex : Nat) : Option Card :=
  p.sequence.get? roundIndex

/-! ### Lemmas about `listSwap` -/

theorem getElem?_some_lt_length {α : Type} {l : List α} {i : Nat} {a : α}
    (h : l[i]? = some a) : i < l.length := by
  by_contra hc
  push_neg at hc
  rw [List.getElem?_eq_none hc] at h
  exact Option.noConfusion h

theorem listSwap_get?_fst {α : Type} {l : List α} {i j : Nat} {a b : α}
    (hi : l.get? i = some a) (hj : l.get? j = some b) (hne : i ≠ j) :
    (listSwap l i j).get? i = some b := by
  unfold listSwap
  rw [hi, hj]
  simp only [List.get?_eq_getElem?] at *
  rw [List.getElem?_set_ne (Ne.symm hne), List.getElem?_set_eq_of_lt]
  exact getElem?_some_lt_length hi

theorem listSwap_get?_snd {α : Type} {l : List α} {i j : Nat} {a b : α}
    (hi : l.get? i = some a) (hj : l.get? j = some b) :
    (listSwap l i j).get? j = some a := by
  unfold listSwap
  rw [hi, hj]
  simp only [List.get?_eq_getElem?] at *
  rw [List.getElem?_set_eq_of_lt]
  rw [List.length_set]
  exact getElem?_some_lt_length hj

theorem listSwap_get?_other {α : Type} (l : List α) (i j k : Nat)
    (hki : k ≠ i) (hkj : k ≠ j) :
    (listSwap l i j).get? k = l.get? k := by
  unfold listSwap
  cases hi : l.get? i with
  | none => rfl
  | some a =>
    cases hj : l.get? j with
    | none => rfl
    | some b =>
      simp only [List.get?_eq_getElem?] at *
      rw [List.getElem?_set_ne (Ne.symm hkj), List.getElem?_set_ne (Ne.symm hki)]

theorem listSwap_length {α : Type} (l : List α) (i j : Nat) :
    (listSwap l i j).length = l.length := by
  unfold listSwap
  cases l.get? i <;> cases l.get? j <;> simp

/-! ### Claim C1: `Player.setSequence` -/

/-- Sample six-card hand for the C1 counterexample. -/
def c1Hand : List Card :=
  [⟨"rock-0", .rock⟩, ⟨"rock-1", .rock⟩, ⟨"rock-2", .rock⟩,
   ⟨"paper-3", .paper⟩, ⟨"paper-4", .paper⟩, ⟨"scissors-5", .scissors⟩]

/-- Sample player for the C1 counterexample. -/
def c1Player : Player :=
  { id := "p1", socketId := "sock1", name := "Alice", hand := c1Hand }

/-- Submitted list for the C1 counterexample: the full hand plus one `null`
entry, 7 entries in total. -/
def c1Seq : List (Option Card) := (c1Hand.map some) ++ [none]

/-- C1 counterexample: `setSequence` accepts a submitted list that is longer
than the hand (a 7-entry list containing a `null`), so success does not imply
that the submitted list has the same length as the hand; moreover the stored
sequence is not the submitted list but its null-stripped restriction. -/
theorem c1_setSequence_counterexample :
    (c1Player.setSequence c1Seq).2 = true ∧
    c1Seq.length ≠ c1Player.hand.length ∧
    (c1Player.setSequence c1Seq).1.sequence.map some ≠ c1Seq := by decide

/-- C1 (amended): for every player and submitted list `seq` (whose entries may
be `null`), `setSequence seq` succeeds at most once (it fails whenever
`sequenceSet` is already true), and otherwise succeeds exactly when `seq`
**with its null entries discarded** has the same length as the hand and the
same card-id set; after a success the stored `sequence` is `seq` with null
entries discarded (hence `seq` itself whenever `seq` has no null entry) and
`sequenceSet` is true; a failed call leaves the player unchanged. -/
theorem c1_setSequence_amended (p : Player) (seq : List (Option Card)) :
    ((p.setSequence seq).2 = true ↔
      (p.sequenceSet = false ∧ seq.reduceOption.length = p.hand.length ∧
        (seq.reduceOption.map Card.id).toFinset = (p.hand.map Card.id).toFinset))
    ∧ ((p.setSequence seq).2 = true →
        (p.setSequence seq).1 =
          { p with sequence := seq.reduceOption, sequenceSet := true })
    ∧ ((p.setSequence seq).2 = false → (p.setSequence seq).1 = p) := by
  by_cases hset : p.sequenceSet = true
  · simp [Player.setSequence, hset]
  · by_cases hlen : seq.reduceOption.length = p.hand.length
    · by_cases hcard : ((p.hand.map Card.id).toFinset).card
          = ((seq.reduceOption.map Card.id).toFinset).card
      · by_cases hsub : (p.hand.map Card.id).toFinset ⊆ (seq.reduceOption.map Card.id).toFinset
        · have heq : (p.hand.map Card.id).toFinset = (seq.reduceOption.map Card.id).toFinset :=
            Finset.eq_of_subset_of_card_le hsub (le_of_eq hcard.symm)
          simp [Player.setSequence, hset, hlen, hcard, hsub, heq.symm]
        · have hne : ¬ ((seq.reduceOption.map Card.id).toFinset
              = (p.hand.map Card.id).toFinset) := by
            intro h
            exact hsub (by rw [h])
          simp [Player.setSequence, hset, hlen, hcard, hsub, hne]
      · have hne : ¬ ((seq.reduceOption.map Card.id).toFinset
            = (p.hand.map Card.id).toFinset) := by
          intro h
          rw [← h] at hcard
          exact hcard rfl
        simp [Player.setSequence, hset, hlen, hcard, hne]
    · simp [Player.setSequence, hset, hlen]

/-- C1 witness: the amended characterisation applied to a concrete player
whose clean six-card submission (no nulls) is accepted. -/
theorem c1_setSequence_amended_witness :
    (c1Player.setSequence (c1Player.hand.map some)).2 = true := by
  have h := c1_setSequence_amended c1Player (c1Player.hand.map some)
  exact h.1.mpr ⟨by decide, by decide, by decide⟩

/-! ### Claim C2: `Player.swapCards` -/

/-- C2: for a player with a six-card sequence and integers `i`, `j`,
`swapCards i j` succeeds exactly when `canSwap` holds (fewer than 3 swaps
used and no swap yet this round), the positions are adjacent and both lie in
`[0, 6)`; on success positions `i` and `j` of the sequence are exchanged
(all other positions unchanged), `swapsUsed` grows by one and
`swappedThisRound` becomes true while every other field is unchanged; on
failure the player is unchanged. -/
theorem c2_swapCards (p : Player) (i j : Int) (hlen : p.sequence.length = 6) :
    ((p.swapCards i j).2 = true ↔
      (p.canSwap = true ∧ (i - j).natAbs = 1 ∧
        0 ≤ i ∧ i < 6 ∧ 0 ≤ j ∧ j < 6))
    ∧ (p.canSwap = true ↔ (p.swapsUsed < 3 ∧ p.swappedThisRound = false))
    ∧ ((p.swapCards i j).2 = true →
        ((p.swapCards i j).1.sequence.get? i.toNat = p.sequence.get? j.toNat ∧
         (p.swapCards i j).1.sequence.get? j.toNat = p.sequence.get? i.toNat ∧
         (∀ k : Nat, k ≠ i.toNat → k ≠ j.toNat →
           (p.swapCards i j).1.sequence.get? k = p.sequence.get? k) ∧
         (p.swapCards i j).1.swapsUsed = p.swapsUsed + 1 ∧
         (p.swapCards i j).1.swappedThisRound = true ∧
         (p.swapCards i j).1.hand = p.hand ∧
         (p.swapCards i j).1.score = p.score ∧
         (p.swapCards i j).1.ready = p.ready ∧
         (p.swapCards i j).1.disconnected = p.disconnected ∧
         (p.swapCards i j).1.sequenceSet = p.sequenceSet))
    ∧ ((p.swapCards i j).2 = false → (p.swapCards i j).1 = p) := by
  have hcan : p.canSwap = true ↔ (p.swapsUsed < 3 ∧ p.swappedThisRound = false) := by
    simp [Player.canSwap, MAX_SWAPS_PER_GAME]
  by_cases h1 : p.canSwap = true
  case neg =>
    have hres : p.swapCards i j = (p, false) := by
      simp [Player.swapCards, h1]
    rw [hres]
    refine ⟨iff_of_false (by simp) ?_, hcan, by simp, fun _ => rfl⟩
    intro hcontr
    exact h1 hcontr.1
  case pos =>
  by_cases h2 : (i - j).natAbs = 1
  case neg =>
    have hres : p.swapCards i j = (p, false) := by
      simp only [Player.swapCards]
      rw [if_neg (fun hc => hc h1), if_pos h2]
    rw [hres]
    refine ⟨iff_of_false (by simp) ?_, hcan, by simp, fun _ => rfl⟩
    intro hcontr
    exact h2 hcontr.2.1
  case pos =>
  by_cases h3 : i < 0 ∨ j < 0 ∨ (p.sequence.length : Int) ≤ i ∨
      (p.sequence.length : Int) ≤ j
  case pos =>
    have hres : p.swapCards i j = (p, false) := by
      simp only [Player.swapCards]
      rw [if_neg (fun hc => hc h1), if_neg (fun hc => hc h2), if_pos h3]
    rw [hres]
    refine ⟨iff_of_false (by simp) ?_, hcan, by simp, fun _ => rfl⟩
    rw [hlen] at h3
    rintro ⟨-, -, hi0, hi6, hj0, hj6⟩
    rcases h3 with h | h | h | h <;> omega
  case neg =>
    have hres : p.swapCards i j =
        ({ p with
            sequence := listSwap p.sequence i.toNat j.toNat,
            swapsUsed := p.swapsUsed + 1,
            swappedThisRound := true }, true) := by
      simp only [Player.swapCards]
      rw [if_neg (fun hc => hc h1), if_neg (fun hc => hc h2), if_neg h3]
    push_neg at h3
    obtain ⟨hi0, hj0, hi6, hj6⟩ := h3
    rw [hlen] at hi6 hj6
    have hine : i.toNat ≠ j.toNat := by
      intro h
      have : i = j := by omega
      simp [this] at h2
    have hilt : i.toNat < p.sequence.length := by omega
    have hjlt : j.toNat < p.sequence.length := by omega
    obtain ⟨a, ha⟩ : ∃ a, p.sequence.get? i.toNat = some a := by
      simp [List.get?_eq_getElem?, List.getElem?_eq_getElem hilt]
    obtain ⟨b, hb⟩ : ∃ b, p.sequence.get? j.toNat = some b := by
      simp [List.get?_eq_getElem?, List.getElem?_eq_getElem hjlt]
    rw [hres]
    refine ⟨iff_of_true rfl ⟨h1, h2, hi0, by omega, hj0, by omega⟩, hcan,
      fun _ => ⟨?_, ?_, ?_, rfl, rfl, rfl, rfl, rfl, rfl, rfl⟩, by simp⟩
    · rw [hb]
      exact listSwap_get?_fst ha hb hine
    · rw [ha]
      exact listSwap_get?_snd ha hb
    · intro k hki hkj
      exact listSwap_get?_other p.sequence i.toNat j.toNat k hki hkj

/-- Sample player for the C2 witness: a committed six-card sequence and a
fresh swap budget. -/
def c2Player : Player :=
  { id := "p2", socketId := "sock2", name := "Bob",
    hand := [⟨"ra", .rock⟩, ⟨"rb", .rock⟩, ⟨"rc", .rock⟩,
             ⟨"pa", .paper⟩, ⟨"pb", .paper⟩, ⟨"sa", .scissors⟩],
    sequence := [⟨"ra", .rock⟩, ⟨"rb", .rock⟩, ⟨"rc", .rock⟩,
                 ⟨"pa", .paper⟩, ⟨"pb", .paper⟩, ⟨"sa", .scissors⟩],
    sequenceSet := true }

/-- C2 witness: the characterisation applied to a concrete player swapping
positions 0 and 1. -/
theorem c2_swapCards_witness : (c2Player.swapCards 0 1).2 = true := by
  have h := c2_swapCards c2Player 0 1 (by decide)
  exact h.1.mpr ⟨by decide, by decide, by decide, by decide, by decide, by decide⟩

/-! ### Rules (`rules.js`) -/

/-- The `wins` map of `determineWinner`: what each kind beats. -/
def beats : CardType → CardType
  | .rock => .scissors
  | .scissors => .paper
  | .paper => .rock

/-- `determineWinner(card1, card2)`: 0 draw, 1 first player, 2 second. -/
def determineWinner (card1 card2 : Card) : Nat :=
  if card1.type = card2.type then 0
  else if beats card1.type = card2.type then 1
  else 2

/-- `getWinExplanation(winnerType, loserType)`. -/
def getWinExplanation (winnerType loserType : CardType) : String :=
  match winnerType, loserType with
  | .rock, .scissors => "Камень бьёт Ножницы"
  | .scissors, .paper => "Ножницы режут Бумагу"
  | .paper, .rock => "Бумага покрывает Камень"
  | _, _ => ""

/-- Result record of `determineGameWinner(player1, player2)` (the display
strings `winnerName`/`loserName`/`score` are carried by `winner`/`isDraw`
and the players themselves and are not separately modelled). -/
structure GameResult where
  winner : Option String
  isDraw : Bool
deriving DecidableEq, Repr

/-- `determineGameWinner(player1, player2)`. -/
def determineGameWinner (player1 player2 : Player) : GameResult :=
  if player2.score < player1.score then ⟨some player1.id, false⟩
  else if player1.score < player2.score then ⟨some player2.id, false⟩
  else ⟨none, true⟩

/-! ### Session embedding (`GameSession.js`) -/

/-- `GamePhase` from `GameSession.js`. -/
inductive GamePhase where
  | waiting
  | preview
  | sequence
  | round_start
  | swap
  | reveal
  | game_over
  | paused
deriving DecidableEq, Repr

/-- Modelled from the spec and `Timer.js`: the session-visible state of the
single active `Timer` — its original duration, the (integer-ceiling) seconds
remaining, and whether it is paused.  Wall-clock passage is not modelled, so
`remaining` stays at its last known value; no claim depends on tick values.
A session's `timer` field is `Option TimerSpec`, with `none` for "no live
timer": creating and starting a timer yields `some`, `clear` yields `none`,
`pause`/`resume` toggle the flag. -/
structure TimerSpec where
  duration : Nat
  remaining : Nat
  paused : Bool
deriving DecidableEq, Repr

/-- A freshly started `new Timer(d, ...)`. -/
def TimerSpec.fresh (d : Nat) : TimerSpec := ⟨d, d, false⟩

/-- `TIMERS.PREVIEW` (seconds). -/
def TIMERS_PREVIEW : Nat := 30

/-- `TIMERS.SEQUENCE` (seconds). -/
def TIMERS_SEQUENCE : Nat := 60

/-- `TIMERS.SWAP` (seconds). -/
def TIMERS_SWAP : Nat := 20

/-- `TIMERS.CONTINUE` (seconds). -/
def TIMERS_CONTINUE : Nat := 5

/-- One entry of `roundHistory`.  The JS object keys cards and scores by
player id; the two players of a session are held in a fixed order, so the
embedding stores them positionally. -/
structure RoundResult where
  round : Nat
  card1 : Card
  card2 : Card
  winner : Option String
  isDraw : Bool
  explanation : String
  score1 : Nat
  score2 : Nat
deriving DecidableEq, Repr

/-- Outbound socket events, with the payload fields the claims observe. -/
inductive GameEvent where
  | cardsPreview (socketId : String) (timeLimit : Nat)
  | previewTimerUpdate (lobbyId : String) (remaining : Nat)
  | opponentPreviewReady (socketId : String)
  | gameStart (socketId : String) (hand : List Card) (timeLimit : Nat)
  | sequenceConfirmed (socketId : String)
  | roundStart (lobbyId : String) (round totalRounds swapTimeLimit : Nat)
  | timerUpdate (lobbyId : String) (remaining : Nat)
  | swapConfirmed (socketId : String) (sequence : List Card) (swapsRemaining : Nat)
  | opponentSwapped (socketId : String)
  | swapError (socketId : String) (message : String)
  | skipConfirmed (socketId : String)
  | roundResult (socketId : String) (round : Nat) (winner : Option String)
      (youWon : Bool) (yourScore opponentScore : Nat)
  | continueCountdown (lobbyId : String) (remaining : Nat)
  | opponentContinued (socketId : String)
  | gameEnd (socketId : String) (winner : Option String) (youWon : Bool)
      (byDisconnect : Bool)
  | opponentDisconnected (socketId : String) (reconnectTimeout : Nat)
  | opponentReconnected (socketId : String)
  | opponentLeft (socketId : String)
  | gameResumed (lobbyId : String) (phase : GamePhase) (timeRemaining : Nat)
  | reconnectedSnapshot (socketId : String)
  | playerJoined (socketId : String)
  | lobbyJoined (socketId : String)
  | lobbyCreated (socketId : String)
  | errorMessage (socketId : String) (message : String)
deriving DecidableEq, Repr

/-- Reified `setTimeout` calls, with their delays in milliseconds. -/
inductive Deferred where
  | reconnectTimeout (playerId lobbyId : String) (delayMs : Nat)
  | notifyOpponentDisconnected (playerId : String) (opponentSocketId : String)
      (delayMs : Nat)
  | startRoundLater (delayMs : Nat)
deriving DecidableEq, Repr

/-- The `GameSession` object.  `player1`/`player2` are `this.players[0]` and
`this.players[1]`. -/
structure SessionState where
  player1 : Player
  player2 : Player
  lobbyId : String
  currentRound : Nat
  totalRounds : Nat := 6
  phase : GamePhase := .waiting
  previousPhase : Option GamePhase := none
  roundHistory : List RoundResult := []
  timer : Option TimerSpec := none
  paused : Bool := false
  continueReady : Finset String := ∅
  previewReady : Finset String := ∅
  completed : Bool := false
  pendingRoundStart : Bool := false
deriving DecidableEq

/-- `GameSession.isCompleted()`. -/
def SessionState.isCompleted (s : SessionState) : Bool :=
  s.completed || s.phase = GamePhase.game_over

/-- `GameSession.getPlayer(playerId)` — `Array.find` on the ordered pair. -/
def SessionState.getPlayer (s : SessionState) (playerId : String) : Option Player :=
  if s.player1.id = playerId then some s.player1
  else if s.player2.id = playerId then some s.player2
  else none

/-- `GameSession.getOpponent(playerId)` — first player whose id differs. -/
def SessionState.getOpponent (s : SessionState) (playerId : String) : Option Player :=
  if s.player1.id ≠ playerId then some s.player1
  else if s.player2.id ≠ playerId then some s.player2
  else none

/-- Writing back a mutation of the player object that `getPlayer` returned
(JS mutates the shared object in place; here the matching slot is replaced). -/
def SessionState.setPlayer (s : SessionState) (p : Player) : SessionState :=
  if s.player1.id = p.id then { s with player1 := p }
  else if s.player2.id = p.id then { s with player2 := p }
  else s

/-- `GameSession.hasDisconnectedPlayer()`. -/
def SessionState.hasDisconnectedPlayer (s : SessionState) : Bool :=
  s.player1.disconnected || s.player2.disconnected

/-- `GameSession.pause()`. -/
def SessionState.pause (s : SessionState) : SessionState :=
  if s.phase = GamePhase.game_over ∨ s.phase = GamePhase.paused then s
  else
    { s with
        previousPhase := some s.phase,
        phase := GamePhase.paused,
        paused := true,
        timer := s.timer.map (fun t => { t with paused := true }) }

/-- `GameSession.endGame()`: terminal phase, result computation, one
`gameEnd` per player (emission order `players[0]`, `players[1]`). -/
def SessionState.endGame (s : SessionState) : SessionState × List GameEvent :=
  let s' := { s with phase := GamePhase.game_over, completed := true, timer := none }
  let res := determineGameWinner s.player1 s.player2
  (s',
   [GameEvent.gameEnd s.player1.socketId res.winner (res.winner == some s.player1.id) false,
    GameEvent.gameEnd s.player2.socketId res.winner (res.winner == some s.player2.id) false])

/-- `GameSession.startRound()`: end the game after the last round; defer
(pause with `pendingRoundStart`) when a player is disconnected, notifying
the connected ones; otherwise reset round flags, broadcast `roundStart`,
enter the swap phase and start the swap timer. -/
def SessionState.startRound (s : SessionState) :
    SessionState × List GameEvent × List Deferred :=
  if s.totalRounds ≤ s.currentRound then
    let (s', es) := s.endGame
    (s', es, [])
  else if s.hasDisconnectedPlayer then
    let s' := SessionState.pause
      { s with pendingRoundStart := true, phase := GamePhase.round_start }
    (s',
     ([s.player1, s.player2].filter (fun p => !p.disconnected)).map
       (fun p => GameEvent.opponentDisconnected p.socketId 120),
     [])
  else
    let s1 :=
      { s with
          pendingRoundStart := false,
          phase := GamePhase.swap,
          player1 := s.player1.resetRound,
          player2 := s.player2.resetRound,
          timer := some (TimerSpec.fresh TIMERS_SWAP) }
    (s1,
     [GameEvent.roundStart s.lobbyId (s.currentRound + 1) s.totalRounds TIMERS_SWAP],
     [])

/-- `GameSession.resume()`: restore the saved phase; with a pending round
start, broadcast `gameResumed` and schedule `startRound` after a 100 ms
yield; otherwise resume the timer and broadcast `gameResumed` with its
remaining time.  `none` models the degenerate JS state where `previousPhase`
is `null` while paused (the JS would assign phase `null`); `pause` always
saves a phase, so that state is unreachable. -/
def SessionState.resume (s : SessionState) :
    Option (SessionState × List GameEvent × List Deferred) :=
  if ¬ s.paused ∨ s.phase ≠ GamePhase.paused then some (s, [], [])
  else
    match s.previousPhase with
    | none => none
    | some pp =>
      let s1 := { s with phase := pp, previousPhase := none, paused := false }
      if s1.pendingRoundStart then
        some (s1, [GameEvent.gameResumed s.lobbyId s1.phase 0],
          [Deferred.startRoundLater 100])
      else
        let s2 := { s1 with timer := s1.timer.map (fun t => { t with paused := false }) }
        some (s2,
          [GameEvent.gameResumed s.lobbyId s2.phase
            (match s2.timer with | some t => t.remaining | none => 0)],
          [])

/-- `GameSession.revealCards()`: score the `currentRound` cards, append the
`RoundResult`, emit one `roundResult` per player, advance `currentRound`,
clear `continueReady` and start the continue timer.  `none` models the JS
crash when a player has no card at `currentRound`. -/
def SessionState.revealCards (s : SessionState) :
    Option (SessionState × List GameEvent) :=
  match s.player1.getCardForRound s.currentRound,
        s.player2.getCardForRound s.currentRound with
  | some card1, some card2 =>
    let result := determineWinner card1 card2
    let p1 := if result = 1 then s.player1.addScore 1 else s.player1
    let p2 := if result = 2 then s.player2.addScore 1 else s.player2
    let roundWinner : Option String :=
      if result = 1 then some s.player1.id
      else if result = 2 then some s.player2.id
      else none
    let rr : RoundResult :=
      { round := s.currentRound + 1,
        card1 := card1,
        card2 := card2,
        winner := roundWinner,
        isDraw := result == 0,
        explanation :=
          if result ≠ 0 then
            getWinExplanation (if result = 1 then card1.type else card2.type)
              (if result = 1 then card2.type else card1.type)
          else "Ничья",
        score1 := p1.score,
        score2 := p2.score }
    let s1 :=
      { s with
          phase := GamePhase.reveal,
          player1 := p1,
          player2 := p2,
          roundHistory := s.roundHistory ++ [rr],
          currentRound := s.currentRound + 1,
          continueReady := ∅,
          timer := some (TimerSpec.fresh TIMERS_CONTINUE) }
    some (s1,
      [GameEvent.roundResult p1.socketId (s.currentRound + 1) roundWinner
        (roundWinner == some p1.id) p1.score p2.score,
       GameEvent.roundResult p2.socketId (s.currentRound + 1) roundWinner
        (roundWinner == some p2.id) p2.score p1.score])
  | _, _ => none

/-- `GameSession.handleContinue(playerId)`: guarded by the reveal phase;
records the id in `continueReady`, notifies the opponent, and when the set
reaches two entries clears the timer and starts the next round.  `none`
models the JS crashes (`opponent.socketId` on a missing opponent,
`this.timer.clear()` on a `null` timer). -/
def SessionState.handleContinue (s : SessionState) (playerId : String) :
    Option (SessionState × List GameEvent × List Deferred) :=
  if s.phase ≠ GamePhase.reveal then some (s, [], [])
  else
    let s1 := { s with continueReady := insert playerId s.continueReady }
    match s.getOpponent playerId with
    | none => none
    | some opponent =>
      let ev := GameEvent.opponentContinued opponent.socketId
      if 2 ≤ s1.continueReady.card then
        match s1.timer with
        | none => none
        | some _ =>
          let (s2, es, ds) := SessionState.startRound { s1 with timer := none }
          some (s2, ev :: es, ds)
      else some (s1, [ev], [])

/-- `GameSession.startSequencePhase()`: enter the sequence phase, clear
`previewReady`, emit `gameStart` to both players, start the sequence timer. -/
def SessionState.startSequencePhase (s : SessionState) :
    SessionState × List GameEvent :=
  ({ s with
      phase := GamePhase.sequence,
      previewReady := ∅,
      timer := some (TimerSpec.fresh TIMERS_SEQUENCE) },
   [GameEvent.gameStart s.player1.socketId s.player1.hand TIMERS_SEQUENCE,
    GameEvent.gameStart s.player2.socketId s.player2.hand TIMERS_SEQUENCE])

/-- `GameSession.handlePreviewReady(playerId)`: guarded by the preview
phase; records the id in `previewReady`, notifies the opponent, and when
the set reaches two entries clears the timer and starts the sequence
phase.  `none` as in `handleContinue`. -/
def SessionState.handlePreviewReady (s : SessionState) (playerId : String) :
    Option (SessionState × List GameEvent × List Deferred) :=
  if s.phase ≠ GamePhase.preview then some (s, [], [])
  else
    let s1 := { s with previewReady := insert playerId s.previewReady }
    match s.getOpponent playerId with
    | none => none
    | some opponent =>
      let ev := GameEvent.opponentPreviewReady opponent.socketId
      if 2 ≤ s1.previewReady.card then
        match s1.timer with
        | none => none
        | some _ =>
          let (s2, es) := SessionState.startSequencePhase { s1 with timer := none }
          some (s2, ev :: es, [])
      else some (s1, [ev], [])

/-- `GameSession.handleSwap(playerId, positions)`: guards (phase, player
known, not yet ready), translation of the relative positions by
`currentRound`, the already-played-cards rejection, then `Player.swapCards`
with confirmation or error, and the swap-phase-completion check. -/
def SessionState.handleSwap (s : SessionState) (playerId : String)
    (pos1 pos2 : Int) : Option (SessionState × List GameEvent) :=
  if s.phase ≠ GamePhase.swap then some (s, [])
  else
    match s.getPlayer playerId with
    | none => some (s, [])
    | some player =>
      if player.ready then some (s, [])
      else
        let actualPos1 := pos1 + (s.currentRound : Int)
        let actualPos2 := pos2 + (s.currentRound : Int)
        if actualPos1 < (s.currentRound : Int) ∨ actualPos2 < (s.currentRound : Int) then
          some (s, [GameEvent.swapError player.socketId "Нельзя менять уже сыгранные карты"])
        else
          let pr := player.swapCards actualPos1 actualPos2
          if pr.2 then
            let p2 := { pr.1 with ready := true }
            let s1 := s.setPlayer p2
            let ev1 := GameEvent.swapConfirmed p2.socketId
              (p2.sequence.drop s.currentRound) (3 - p2.swapsUsed)
            match s.getOpponent playerId with
            | none => none
            | some opponent =>
              let ev2 := GameEvent.opponentSwapped opponent.socketId
              if s1.player1.ready && s1.player2.ready then
                match s1.timer with
                | none => none
                | some _ =>
                  match SessionState.revealCards { s1 with timer := none } with
                  | some (s2, es) => some (s2, ev1 :: ev2 :: es)
                  | none => none
              else some (s1, [ev1, ev2])
          else
            some (s, [GameEvent.swapError player.socketId
              "Некорректный свап (только соседние карты, макс. 3 за игру)"])

/-- `GameSession.endGameByDisconnect(winnerId)`: terminal phase and timer
clearing, `gameEnd` flagged `byDisconnect` to the winner, and to the loser
only when they are not disconnected.  `none` models the JS crash when the
winner or opponent cannot be resolved.  (In JS the phase/completed/timer
writes precede the lookup; the crash case discards them here, and no claim
depends on that difference.) -/
def SessionState.endGameByDisconnect (s : SessionState) (winnerId : String) :
    Option (SessionState × List GameEvent) :=
  match s.getPlayer winnerId, s.getOpponent winnerId with
  | some winner, some loser =>
    some ({ s with phase := GamePhase.game_over, completed := true, timer := none },
      GameEvent.gameEnd winner.socketId (some winnerId) true true ::
        (if loser.disconnected then []
         else [GameEvent.gameEnd loser.socketId (some winnerId) false true]))
  | _, _ => none

/-! ### Claim C4: `revealCards` scoring and history invariants -/

/-- Number of draw entries in a round history. -/
def drawCount (hist : List RoundResult) : Nat :=
  (hist.filter (fun rr => rr.isDraw)).length

/-- In the win relation of `rules.js`, a non-draw where the first card does
not beat the second means the second beats the first. -/
theorem beats_of_neq {t1 t2 : CardType} (hne : t1 ≠ t2) (hnb : beats t1 ≠ t2) :
    beats t2 = t1 := by
  cases t1 <;> cases t2 <;> simp_all [beats]

/-- C4: a reveal in a session whose players have committed sequences (with a
card at the revealed position) appends exactly one entry to the round
history and advances `currentRound` by one, so the history length again
equals `currentRound`; both scores are non-decreasing; the appended
`RoundResult` carries the two revealed cards and is emitted to both players,
and exactly one of three cases holds, each tied to the win relation on the
revealed cards: equal kinds — a draw, no winner, neither score changes;
`beats card1 = card2` — player 1 is the recorded winner and only their score
grows by one; `beats card2 = card1` — player 2 is the recorded winner and
only their score grows by one.  The invariant `score1 + score2 + draws =
rounds played` is preserved. -/
theorem c4_revealCards (s : SessionState) (card1 card2 : Card)
    (hset1 : s.player1.sequenceSet = true) (hset2 : s.player2.sequenceSet = true)
    (h1 : s.player1.getCardForRound s.currentRound = some card1)
    (h2 : s.player2.getCardForRound s.currentRound = some card2)
    (hhist : s.roundHistory.length = s.currentRound)
    (hsum : s.player1.score + s.player2.score + drawCount s.roundHistory = s.currentRound) :
    ∃ s' es, s.revealCards = some (s', es) ∧
      s'.roundHistory.length = s.roundHistory.length + 1 ∧
      s'.currentRound = s.currentRound + 1 ∧
      s'.roundHistory.length = s'.currentRound ∧
      s.player1.score ≤ s'.player1.score ∧
      s.player2.score ≤ s'.player2.score ∧
      (∃ rr : RoundResult,
        s'.roundHistory = s.roundHistory ++ [rr] ∧
        rr.card1 = card1 ∧ rr.card2 = card2 ∧
        es = [GameEvent.roundResult s'.player1.socketId (s.currentRound + 1) rr.winner
                (rr.winner == some s.player1.id) s'.player1.score s'.player2.score,
              GameEvent.roundResult s'.player2.socketId (s.currentRound + 1) rr.winner
                (rr.winner == some s.player2.id) s'.player2.score s'.player1.score] ∧
        ((card1.type = card2.type ∧ rr.winner = none ∧ rr.isDraw = true ∧
            s'.player1.score = s.player1.score ∧ s'.player2.score = s.player2.score)
         ∨ (beats card1.type = card2.type ∧ rr.winner = some s.player1.id ∧
            rr.isDraw = false ∧
            s'.player1.score = s.player1.score + 1 ∧ s'.player2.score = s.player2.score)
         ∨ (beats card2.type = card1.type ∧ card1.type ≠ card2.type ∧
            rr.winner = some s.player2.id ∧ rr.isDraw = false ∧
            s'.player2.score = s.player2.score + 1 ∧ s'.player1.score = s.player1.score))) ∧
      s'.player1.score + s'.player2.score + drawCount s'.roundHistory = s'.currentRound := by
  unfold SessionState.revealCards
  rw [h1, h2]
  refine ⟨_, _, rfl, ?_, ?_, ?_, ?_, ?_, ?_, ?_⟩
  · simp
  · simp
  · simp [hhist]
  · by_cases ht : card1.type = card2.type
    · simp [determineWinner, ht, Player.addScore]
    · by_cases hb : beats card1.type = card2.type
      · simp [determineWinner, ht, hb, Player.addScore]
      · simp [determineWinner, ht, hb, Player.addScore]
  · by_cases ht : card1.type = card2.type
    · simp [determineWinner, ht, Player.addScore]
    · by_cases hb : beats card1.type = card2.type
      · simp [determineWinner, ht, hb, Player.addScore]
      · simp [determineWinner, ht, hb, Player.addScore]
  · refine ⟨_, rfl, rfl, rfl, ?_, ?_⟩
    · by_cases ht : card1.type = card2.type
      · simp [determineWinner, ht, Player.addScore]
      · by_cases hb : beats card1.type = card2.type
        · simp [determineWinner, ht, hb, Player.addScore]
        · simp [determineWinner, ht, hb, Player.addScore]
    · by_cases ht : card1.type = card2.type
      · left
        refine ⟨ht, ?_, ?_, ?_, ?_⟩ <;> simp [determineWinner, ht, Player.addScore]
      · by_cases hb : beats card1.type = card2.type
        · right; left
          refine ⟨hb, ?_, ?_, ?_, ?_⟩ <;> simp [determineWinner, ht, hb, Player.addScore]
        · right; right
          refine ⟨beats_of_neq ht hb, ht, ?_, ?_, ?_, ?_⟩ <;>
            simp [determineWinner, ht, hb, Player.addScore]
  · unfold drawCount at hsum ⊢
    by_cases ht : card1.type = card2.type
    · simp [determineWinner, ht, Player.addScore]
      omega
    · by_cases hb : beats card1.type = card2.type
      · simp [determineWinner, ht, hb, Player.addScore]
        omega
      · simp [determineWinner, ht, hb, Player.addScore]
        omega

/-- First player of the concrete session used by the C4 witness. -/
def c4P1 : Player :=
  { id := "p1", socketId := "s1", name := "A",
    hand := [⟨"a", .rock⟩, ⟨"b", .rock⟩, ⟨"c", .rock⟩,
             ⟨"d", .paper⟩, ⟨"e", .paper⟩, ⟨"f", .scissors⟩],
    sequence := [⟨"a", .rock⟩, ⟨"b", .rock⟩, ⟨"c", .rock⟩,
                 ⟨"d", .paper⟩, ⟨"e", .paper⟩, ⟨"f", .scissors⟩],
    sequenceSet := true }

/-- Second player of the concrete session used by the C4 witness. -/
def c4P2 : Player :=
  { id := "p2", socketId := "s2", name := "B",
    hand := [⟨"g", .paper⟩, ⟨"h", .paper⟩, ⟨"i", .paper⟩,
             ⟨"j", .scissors⟩, ⟨"k", .scissors⟩, ⟨"l", .rock⟩],
    sequence := [⟨"g", .paper⟩, ⟨"h", .paper⟩, ⟨"i", .paper⟩,
                 ⟨"j", .scissors⟩, ⟨"k", .scissors⟩, ⟨"l", .rock⟩],
    sequenceSet := true }

/-- Concrete swap-phase session, round 0, used by the C4 witness. -/
def c4Session : SessionState :=
  { player1 := c4P1, player2 := c4P2, lobbyId := "ABCDEF",
    currentRound := 0, phase := .swap, timer := some (TimerSpec.fresh 20) }

/-- C4 witness: the invariants instantiated at a concrete round-0 session —
rock against paper appends one history entry recording player 2 (whose paper
beats rock) as the winner. -/
theorem c4_revealCards_witness :
    ∃ s' es, c4Session.revealCards = some (s', es) ∧
      s'.roundHistory.length = c4Session.roundHistory.length + 1 ∧
      s'.currentRound = c4Session.currentRound + 1 ∧
      ∃ rr : RoundResult, s'.roundHistory = c4Session.roundHistory ++ [rr] ∧
        rr.winner = some "p2" := by
  obtain ⟨s', es, hres, hlen, hround, -, -, -, ⟨rr, hh, -, -, -, hcase⟩, -⟩ :=
    c4_revealCards c4Session ⟨"a", .rock⟩ ⟨"g", .paper⟩ (by decide) (by decide)
      (by decide) (by decide) (by decide) (by decide)
  refine ⟨s', es, hres, hlen, hround, rr, hh, ?_⟩
  rcases hcase with ⟨h, -⟩ | ⟨h, -⟩ | ⟨-, -, hw, -⟩
  · exact absurd h (by decide)
  · exact absurd h (by decide)
  · exact hw

/-! ### Claim C5: deferred round start while a player is disconnected -/

/-- First player of the sessions used for C5. -/
def c5P1 : Player :=
  { id := "p1", socketId := "s1", name := "A",
    hand := [⟨"a", .rock⟩, ⟨"b", .rock⟩, ⟨"c", .rock⟩,
             ⟨"d", .paper⟩, ⟨"e", .paper⟩, ⟨"f", .scissors⟩],
    sequence := [⟨"a", .rock⟩, ⟨"b", .rock⟩, ⟨"c", .rock⟩,
                 ⟨"d", .paper⟩, ⟨"e", .paper⟩, ⟨"f", .scissors⟩],
    sequenceSet := true }

/-- Second player of the sessions used for C5, currently disconnected. -/
def c5P2 : Player :=
  { id := "p2", socketId := "s2", name := "B",
    hand := [⟨"g", .paper⟩, ⟨"h", .paper⟩, ⟨"i", .paper⟩,
             ⟨"j", .scissors⟩, ⟨"k", .scissors⟩, ⟨"l", .rock⟩],
    sequence := [⟨"g", .paper⟩, ⟨"h", .paper⟩, ⟨"i", .paper⟩,
                 ⟨"j", .scissors⟩, ⟨"k", .scissors⟩, ⟨"l", .rock⟩],
    sequenceSet := true, disconnected := true, disconnectedAt := some 1000 }

/-- C5 counterexample session: the reveal of round 6 has just finished
(`currentRound = 6`) and player 2 dropped silently during that reveal, so
the continue timeout invokes `startRound` with a disconnected player. -/
def c5CtrSession : SessionState :=
  { player1 := c5P1, player2 := c5P2, lobbyId := "ABCDEF",
    currentRound := 6, phase := .reveal, timer := some (TimerSpec.fresh 5) }

/-- C5 counterexample: `startRound` invoked with a disconnected player but
`currentRound = totalRounds` does not defer at all — it ends the game
(phase `game_over`, not `round_start`; no pause; no pending token). -/
theorem c5_startRound_counterexample :
    c5CtrSession.hasDisconnectedPlayer = true ∧
    (c5CtrSession.startRound).1.phase = GamePhase.game_over ∧
    (c5CtrSession.startRound).1.paused = false ∧
    (c5CtrSession.startRound).1.pendingRoundStart = false := by decide

/-- C5 (amended): if `startRound` is invoked while a player is disconnected
**and rounds remain to be played** (`currentRound < totalRounds`), the round
transition is deferred: the phase becomes `round_start` and is immediately
saved by the pause (so the session is paused with `previousPhase =
round_start`), the pending round-start token is recorded, and no round is
started (round counter and history unchanged, nothing scheduled).  On the
next resume the saved phase is restored and `startRound` is scheduled after
a 100 ms yield instead of being run synchronously.  The pending token is
consumed by that deferred `startRound`, which resets it to `false` whenever
both players are back (so it fires exactly once per deferral). -/
theorem c5_deferred_round_start :
    (∀ s : SessionState, s.hasDisconnectedPlayer = true →
      s.currentRound < s.totalRounds →
      ((s.startRound).1.phase = GamePhase.paused ∧
       (s.startRound).1.previousPhase = some GamePhase.round_start ∧
       (s.startRound).1.paused = true ∧
       (s.startRound).1.pendingRoundStart = true ∧
       (s.startRound).1.currentRound = s.currentRound ∧
       (s.startRound).1.roundHistory = s.roundHistory ∧
       (s.startRound).2.2 = []))
    ∧ (∀ (s : SessionState) (pp : GamePhase), s.paused = true →
        s.phase = GamePhase.paused → s.previousPhase = some pp →
        s.pendingRoundStart = true →
        s.resume = some ({ s with phase := pp, previousPhase := none, paused := false },
          [GameEvent.gameResumed s.lobbyId pp 0], [Deferred.startRoundLater 100]))
    ∧ (∀ s : SessionState, s.hasDisconnectedPlayer = false →
        s.currentRound < s.totalRounds →
        (s.startRound).1.pendingRoundStart = false) := by
  refine ⟨?_, ?_, ?_⟩
  · intro s hd hlt
    have hn : ¬ (s.totalRounds ≤ s.currentRound) := by omega
    simp [SessionState.startRound, SessionState.pause, hn, hd]
  · intro s pp hpaused hphase hprev hpending
    have hguard : ¬ (¬ s.paused = true ∨ s.phase ≠ GamePhase.paused) := by
      simp [hpaused, hphase]
    simp only [SessionState.resume, if_neg hguard, hprev]
    simp [hpending]
  · intro s hd hlt
    have hn : ¬ (s.totalRounds ≤ s.currentRound) := by omega
    simp [SessionState.startRound, hn, hd]

/-- C5 witness session where the deferral fires: round 2 about to start,
player 2 disconnected. -/
def c5DeferSession : SessionState :=
  { player1 := c5P1, player2 := c5P2, lobbyId := "ABCDEF",
    currentRound := 2, phase := .reveal, timer := some (TimerSpec.fresh 5) }

/-- C5 witness session for the resume half: paused in `round_start` with the
pending token set. -/
def c5PausedSession : SessionState :=
  { player1 := c5P1, player2 := { c5P2 with disconnected := false },
    lobbyId := "ABCDEF", currentRound := 2, phase := .paused,
    previousPhase := some .round_start, paused := true,
    pendingRoundStart := true }

/-- C5 witness: the amended statement applied at concrete sessions — the
deferral marks the pause and the pending token, and the resume schedules the
100 ms deferred round start. -/
theorem c5_deferred_round_start_witness :
    ((c5DeferSession.startRound).1.phase = GamePhase.paused ∧
     (c5DeferSession.startRound).1.pendingRoundStart = true) ∧
    c5PausedSession.resume = some
      ({ c5PausedSession with
          phase := GamePhase.round_start,
          previousPhase := none,
          paused := false },
       [GameEvent.gameResumed "ABCDEF" GamePhase.round_start 0],
       [Deferred.startRoundLater 100]) := by
  have h := c5_deferred_round_start
  have h1 := h.1 c5DeferSession (by decide) (by decide)
  exact ⟨⟨h1.1, h1.2.2.2.1⟩, h.2.1 c5PausedSession GamePhase.round_start rfl rfl rfl rfl⟩

/-! ### Claim C10: readiness signals are idempotent and need two distinct ids -/

theorem insert_eq_singleton_of_subset {R : Finset String} {pid : String}
    (h : R ⊆ {pid}) : insert pid R = {pid} := by
  apply Finset.Subset.antisymm
  · exact Finset.insert_subset (Finset.mem_singleton_self pid) h
  · exact Finset.singleton_subset_iff.mpr (Finset.mem_insert_self pid R)

/-- C10: readiness signalling records the sender id in a set, so repeats from
one player are idempotent and never advance the phase alone.  As long as only
`pid` has signalled (`previewReady ⊆ {pid}` resp. `continueReady ⊆ {pid}`,
which covers an arbitrary number of repeats by the same player),
`handlePreviewReady`/`handleContinue` leave the set at `{pid}`, leave the
phase and the timer as they are and only notify the opponent; the transition
(with its timer clearing) fires exactly when the set reaches two entries,
which requires a second, distinct player id (last conjunct). -/
theorem c10_readiness_two_distinct :
    (∀ (s : SessionState) (pid : String) (opp : Player),
      s.phase = GamePhase.preview → s.getOpponent pid = some opp →
      s.previewReady ⊆ {pid} →
      s.handlePreviewReady pid =
        some ({ s with previewReady := {pid} },
          [GameEvent.opponentPreviewReady opp.socketId], []))
    ∧ (∀ (s : SessionState) (pid : String) (opp : Player) (t : TimerSpec),
        s.phase = GamePhase.preview → s.getOpponent pid = some opp →
        s.timer = some t → 2 ≤ (insert pid s.previewReady).card →
        s.handlePreviewReady pid =
          some ({ s with
                    phase := GamePhase.sequence,
                    previewReady := ∅,
                    timer := some (TimerSpec.fresh TIMERS_SEQUENCE) },
            [GameEvent.opponentPreviewReady opp.socketId,
             GameEvent.gameStart s.player1.socketId s.player1.hand TIMERS_SEQUENCE,
             GameEvent.gameStart s.player2.socketId s.player2.hand TIMERS_SEQUENCE], []))
    ∧ (∀ (s : SessionState) (pid : String) (opp : Player),
        s.phase = GamePhase.reveal → s.getOpponent pid = some opp →
        s.continueReady ⊆ {pid} →
        s.handleContinue pid =
          some ({ s with continueReady := {pid} },
            [GameEvent.opponentContinued opp.socketId], []))
    ∧ (∀ (s : SessionState) (pid : String) (opp : Player) (t : TimerSpec),
        s.phase = GamePhase.reveal → s.getOpponent pid = some opp →
        s.timer = some t → 2 ≤ (insert pid s.continueReady).card →
        s.handleContinue pid =
          (let r := SessionState.startRound
            { s with continueReady := insert pid s.continueReady, timer := none }
           some (r.1, GameEvent.opponentContinued opp.socketId :: r.2.1, r.2.2)))
    ∧ (∀ (R : Finset String) (pid : String),
        2 ≤ (insert pid R).card → ∃ q ∈ R, q ≠ pid) := by
  refine ⟨?_, ?_, ?_, ?_, ?_⟩
  · intro s pid opp hphase hopp hsub
    have hins : insert pid s.previewReady = {pid} := insert_eq_singleton_of_subset hsub
    have hcard : ¬ (2 ≤ (insert pid s.previewReady).card) := by
      rw [hins, Finset.card_singleton]
      omega
    simp [SessionState.handlePreviewReady, hphase, hopp, hcard, hins]
  · intro s pid opp t hphase hopp htimer hcard
    simp [SessionState.handlePreviewReady, hphase, hopp, hcard, htimer,
      SessionState.startSequencePhase]
  · intro s pid opp hphase hopp hsub
    have hins : insert pid s.continueReady = {pid} := insert_eq_singleton_of_subset hsub
    have hcard : ¬ (2 ≤ (insert pid s.continueReady).card) := by
      rw [hins, Finset.card_singleton]
      omega
    simp [SessionState.handleContinue, hphase, hopp, hcard, hins]
  · intro s pid opp t hphase hopp htimer hcard
    simp [SessionState.handleContinue, hphase, hopp, hcard, htimer]
  · intro R pid hcard
    by_contra hc
    push_neg at hc
    have hsub : R ⊆ {pid} := by
      intro q hq
      rw [Finset.mem_singleton]
      exact hc q hq
    rw [insert_eq_singleton_of_subset hsub, Finset.card_singleton] at hcard
    omega

/-- Preview-phase session for the C10 witness. -/
def c10Session : SessionState :=
  { player1 := { id := "p1", socketId := "s1", name := "A" },
    player2 := { id := "p2", socketId := "s2", name := "B" },
    lobbyId := "ABCDEF", currentRound := 0, phase := .preview,
    timer := some (TimerSpec.fresh 30) }

/-- C10 witness: one player signalling preview readiness twice leaves the
session in preview with a singleton readiness set both times. -/
theorem c10_readiness_two_distinct_witness :
    c10Session.handlePreviewReady "p1" =
      some ({ c10Session with previewReady := {"p1"} },
        [GameEvent.opponentPreviewReady "s2"], []) ∧
    SessionState.handlePreviewReady { c10Session with previewReady := {"p1"} } "p1" =
      some ({ c10Session with previewReady := {"p1"} },
        [GameEvent.opponentPreviewReady "s2"], []) := by
  have h := c10_readiness_two_distinct
  constructor
  · exact h.1 c10Session "p1" { id := "p2", socketId := "s2", name := "B" }
      rfl (by decide) (by decide)
  · exact h.1 { c10Session with previewReady := {"p1"} } "p1"
      { id := "p2", socketId := "s2", name := "B" } rfl (by decide) (by decide)


/-! ### Claim C3: swap position frame translation and validation -/

/-- `InputValidator.swapPositions(positions, currentRound, totalCards)`: the
two `Number.isInteger` checks are modelled by the `Int` typing; then
non-negativity, the remaining-cards upper bound
(`totalCards - currentRound`), and adjacency, in source order. -/
def InputValidator.swapPositions (pos1 pos2 : Int) (currentRound totalCards : Nat) :
    Option (Int × Int) :=
  if pos1 < 0 ∨ pos2 < 0 then none
  else
    let remainingCards : Int := (totalCards : Int) - (currentRound : Int)
    if remainingCards ≤ pos1 ∨ remainingCards ≤ pos2 then none
    else if (pos1 - pos2).natAbs ≠ 1 then none
    else some (pos1, pos2)

theorem Player.swapCards_id (p : Player) (a b : Int) : (p.swapCards a b).1.id = p.id := by
  unfold Player.swapCards
  split_ifs <;> rfl

theorem c3_reject (s : SessionState) (pid : String)
    (player : Player) (pos1 pos2 : Int)
    (hphase : s.phase = GamePhase.swap)
    (hp : s.getPlayer pid = some player)
    (hready : player.ready = false)
    (hneg : pos1 + (s.currentRound : Int) < (s.currentRound : Int) ∨
      pos2 + (s.currentRound : Int) < (s.currentRound : Int)) :
    s.handleSwap pid pos1 pos2 =
      some (s, [GameEvent.swapError player.socketId "Нельзя менять уже сыгранные карты"]) := by
  simp only [SessionState.handleSwap]
  rw [if_neg (fun hc => hc hphase), hp]
  dsimp only
  rw [if_neg (by simp [hready]), if_pos hneg]

theorem c3_success (s : SessionState) (pid : String)
    (player opp : Player) (pos1 pos2 : Int)
    (hphase : s.phase = GamePhase.swap)
    (hp : s.getPlayer pid = some player)
    (hready : player.ready = false)
    (hopp : s.getOpponent pid = some opp)
    (hnotneg : ¬ (pos1 + (s.currentRound : Int) < (s.currentRound : Int) ∨
      pos2 + (s.currentRound : Int) < (s.currentRound : Int)))
    (hok : (player.swapCards (pos1 + (s.currentRound : Int))
        (pos2 + (s.currentRound : Int))).2 = true)
    (hoppready : opp.ready = false) :
    s.handleSwap pid pos1 pos2 =
      (let p2 : Player :=
        { (player.swapCards (pos1 + (s.currentRound : Int))
            (pos2 + (s.currentRound : Int))).1 with ready := true }
       some (s.setPlayer p2,
        [GameEvent.swapConfirmed p2.socketId
          (p2.sequence.drop s.currentRound) (3 - p2.swapsUsed),
         GameEvent.opponentSwapped opp.socketId])) := by
  simp only [SessionState.handleSwap]
  rw [if_neg (fun hc => hc hphase), hp]
  dsimp only
  rw [if_neg (by simp [hready]), if_neg hnotneg]
  rw [if_pos hok, hopp]
  dsimp only
  unfold SessionState.getPlayer at hp
  unfold SessionState.getOpponent at hopp
  by_cases h1 : s.player1.id = pid
  · rw [if_pos h1] at hp
    rw [if_neg (by simp [h1])] at hopp
    have hplayer : player = s.player1 := by injection hp with h; exact h.symm
    by_cases h2 : s.player2.id ≠ pid
    · rw [if_pos h2] at hopp
      have hoppeq : opp = s.player2 := by injection hopp with h; exact h.symm
      have hset : s.player1.id =
          (player.swapCards (pos1 + (s.currentRound : Int))
            (pos2 + (s.currentRound : Int))).1.id := by
        rw [Player.swapCards_id, hplayer]
      have hp2ready : s.player2.ready = false := by
        rw [← hoppeq]
        exact hoppready
      rw [if_neg ?_]
      simp [SessionState.setPlayer, hset, hp2ready]
    · push_neg at h2
      rw [if_neg (by simp [h2])] at hopp
      exact absurd hopp (by simp)
  · rw [if_neg h1] at hp
    rw [if_pos h1] at hopp
    have hoppeq : opp = s.player1 := by injection hopp with h; exact h.symm
    by_cases h2 : s.player2.id = pid
    · rw [if_pos h2] at hp
      have hplayer : player = s.player2 := by injection hp with h; exact h.symm
      have hid2 : (player.swapCards (pos1 + (s.currentRound : Int))
          (pos2 + (s.currentRound : Int))).1.id = pid := by
        rw [Player.swapCards_id, hplayer, h2]
      have hp1ready : s.player1.ready = false := by
        rw [← hoppeq]
        exact hoppready
      rw [if_neg ?_]
      simp [SessionState.setPlayer, hid2, h2, h1, hp1ready]
    · rw [if_neg h2] at hp
      exact absurd hp (by simp)

/-- C3: for an inbound swap during the swap phase (resolved player not yet
ready, opponent resolvable): (1) the session translates the relative
positions by adding `currentRound`, and any request whose resulting absolute
index falls below `currentRound` is rejected with a `swapError` and no state
change; (2) otherwise the swap is performed by `Player.swapCards` **at the
translated absolute positions** — when it succeeds (and the opponent is not
yet ready, so the phase does not complete) the only state change is that
player's swapped sequence and flags plus readiness; (3) a position pair is
accepted by the validator exactly when both integers are ≥ 0, strictly below
`totalCards − currentRound` (with `totalCards = CARDS_PER_PLAYER` at the
call site), and their absolute difference is 1. -/
theorem c3_swap_position_contract (s : SessionState) (pid : String)
    (player opp : Player) (pos1 pos2 : Int)
    (hphase : s.phase = GamePhase.swap)
    (hp : s.getPlayer pid = some player)
    (hready : player.ready = false)
    (hopp : s.getOpponent pid = some opp) :
    ((pos1 + (s.currentRound : Int) < (s.currentRound : Int) ∨
      pos2 + (s.currentRound : Int) < (s.currentRound : Int)) →
      s.handleSwap pid pos1 pos2 =
        some (s, [GameEvent.swapError player.socketId "Нельзя менять уже сыгранные карты"]))
    ∧ (∀ hnotneg : ¬ (pos1 + (s.currentRound : Int) < (s.currentRound : Int) ∨
          pos2 + (s.currentRound : Int) < (s.currentRound : Int)),
        (player.swapCards (pos1 + (s.currentRound : Int))
          (pos2 + (s.currentRound : Int))).2 = true →
        opp.ready = false →
        s.handleSwap pid pos1 pos2 =
          (let p2 : Player :=
            { (player.swapCards (pos1 + (s.currentRound : Int))
                (pos2 + (s.currentRound : Int))).1 with ready := true }
           some (s.setPlayer p2,
            [GameEvent.swapConfirmed p2.socketId
              (p2.sequence.drop s.currentRound) (3 - p2.swapsUsed),
             GameEvent.opponentSwapped opp.socketId])))
    ∧ (∀ (r total : Nat),
        InputValidator.swapPositions pos1 pos2 r total = some (pos1, pos2) ↔
          (0 ≤ pos1 ∧ 0 ≤ pos2 ∧ pos1 < (total : Int) - (r : Int) ∧
           pos2 < (total : Int) - (r : Int) ∧ (pos1 - pos2).natAbs = 1)) := by
  refine ⟨c3_reject s pid player pos1 pos2 hphase hp hready, ?_, ?_⟩
  · intro hnotneg hok hoppready
    exact c3_success s pid player opp pos1 pos2 hphase hp hready hopp hnotneg hok hoppready
  · intro r total
    unfold InputValidator.swapPositions
    constructor
    · intro h
      by_cases hneg : pos1 < 0 ∨ pos2 < 0
      · simp [hneg] at h
      · rw [if_neg hneg] at h
        by_cases hrem : ((total : Int) - (r : Int) ≤ pos1 ∨ (total : Int) - (r : Int) ≤ pos2)
        · simp at h
          push_neg at hneg
          exact ⟨hneg.1, hneg.2, by omega, by omega, h.2⟩
        · rw [if_neg hrem] at h
          by_cases hadj : (pos1 - pos2).natAbs ≠ 1
          · simp [hadj] at h
          · push_neg at hadj
            push_neg at hneg hrem
            exact ⟨by omega, by omega, by omega, by omega, hadj⟩
    · rintro ⟨hnn1, hnn2, hub1, hub2, hadj⟩
      rw [if_neg (by omega), if_neg (by omega), if_neg (by simp [hadj])]

/-- Swap-phase session at round 1 for the C3 witness. -/
def c3Session : SessionState :=
  { player1 :=
      { id := "p1", socketId := "s1", name := "A",
        hand := [⟨"a", .rock⟩, ⟨"b", .rock⟩, ⟨"c", .rock⟩,
                 ⟨"d", .paper⟩, ⟨"e", .paper⟩, ⟨"f", .scissors⟩],
        sequence := [⟨"a", .rock⟩, ⟨"b", .rock⟩, ⟨"c", .rock⟩,
                     ⟨"d", .paper⟩, ⟨"e", .paper⟩, ⟨"f", .scissors⟩],
        sequenceSet := true },
    player2 :=
      { id := "p2", socketId := "s2", name := "B",
        hand := [⟨"g", .paper⟩, ⟨"h", .paper⟩, ⟨"i", .paper⟩,
                 ⟨"j", .scissors⟩, ⟨"k", .scissors⟩, ⟨"l", .rock⟩],
        sequence := [⟨"g", .paper⟩, ⟨"h", .paper⟩, ⟨"i", .paper⟩,
                     ⟨"j", .scissors⟩, ⟨"k", .scissors⟩, ⟨"l", .rock⟩],
        sequenceSet := true },
    lobbyId := "ABCDEF", currentRound := 1, phase := .swap,
    timer := some (TimerSpec.fresh 20) }

/-- C3 witness: at round 1, relative positions (0, 1) are translated to
absolute positions (1, 2) and the swap of those sequence slots succeeds;
relative position −1 is rejected with the already-played-cards error; and
the validator accepts (0, 1) for round 1 over six cards. -/
theorem c3_swap_position_contract_witness :
    (c3Session.handleSwap "p1" 0 1).map
        (fun r => r.1.player1.sequence.map Card.id) =
      some ["a", "c", "b", "d", "e", "f"] ∧
    c3Session.handleSwap "p1" (-1) 0 =
      some (c3Session, [GameEvent.swapError "s1" "Нельзя менять уже сыгранные карты"]) ∧
    InputValidator.swapPositions 0 1 1 CARDS_PER_PLAYER = some (0, 1) := by
  have h := c3_swap_position_contract c3Session "p1"
    c3Session.player1 c3Session.player2 0 1 rfl (by decide) (by decide) (by decide)
  have hsucc := h.2.1 (by decide) (by decide) (by decide)
  have h2 := c3_swap_position_contract c3Session "p1"
    c3Session.player1 c3Session.player2 (-1) 0 rfl (by decide) (by decide) (by decide)
  refine ⟨?_, h2.1 (by decide), ?_⟩
  · rw [hsucc]
    decide
  · exact (h.2.2 1 CARDS_PER_PLAYER).mpr (by decide)


/-! ### Lobby registry embedding (`LobbyManager.js`)

The three JS `Map`s become association lists looked up by key; `Map.set`
re-inserts the entry (entry order is never observed by the modelled
operations), `Map.delete` filters it out.  `lobby.players` and the session
players are the same JS objects; `Lobby.updatePlayer` therefore writes a
player mutation into both the roster and the session. -/

/-- `Map.get`. -/
def alistGet {α : Type} (l : List (String × α)) (k : String) : Option α :=
  (l.find? (fun kv => kv.1 == k)).map (fun kv => kv.2)

/-- `Map.delete`. -/
def alistDelete {α : Type} (l : List (String × α)) (k : String) : List (String × α) :=
  l.filter (fun kv => kv.1 != k)

/-- `Map.set` (entry order is irrelevant to every modelled operation, so the
entry is re-inserted at the front). -/
def alistSet {α : Type} (l : List (String × α)) (k : String) (v : α) : List (String × α) :=
  (k, v) :: alistDelete l k

/-- One value of the `disconnectedPlayers` map: lobby id, disconnect
timestamp, and whether a delayed opponent notification was scheduled
(`notifyTimeout`).  The raw timer handles are represented by the `Deferred`
values returned by the operations. -/
structure DisconnectInfo where
  lobbyId : String
  disconnectedAt : Nat
  hasNotify : Bool
deriving DecidableEq, Repr

/-- One value of the `lobbies` map. -/
structure Lobby where
  players : List Player
  session : Option SessionState
  createdAt : Nat
  allowedPlayerIds : List String
deriving DecidableEq

/-- The `LobbyManager` object (its three maps). -/
structure LMState where
  lobbies : List (String × Lobby)
  playerToLobby : List (String × String)
  disconnectedPlayers : List (String × DisconnectInfo)
deriving DecidableEq

/-- Write a mutation of a player object into the roster and the session
(the JS arrays alias the same objects). -/
def Lobby.updatePlayer (lb : Lobby) (p : Player) : Lobby :=
  { lb with
      players := lb.players.map (fun q => if q.id = p.id then p else q),
      session := lb.session.map (fun sess => sess.setPlayer p) }

/-- Apply a session mutation inside a lobby. -/
def Lobby.mapSession (lb : Lobby) (f : SessionState → SessionState) : Lobby :=
  { lb with session := lb.session.map f }

/-- `LobbyManager.cleanupLobby(lobbyId)`: remove the roster socket mappings
and disconnect-tracking entries of the members, then delete the lobby (the
JS also clears the session timer of the object being dropped, which is
unobservable afterwards). -/
def cleanupLobby (st : LMState) (lobbyId : String) : LMState :=
  match alistGet st.lobbies lobbyId with
  | none => st
  | some lb =>
    { st with
        playerToLobby :=
          lb.players.foldl (fun m p => alistDelete m p.socketId) st.playerToLobby,
        disconnectedPlayers :=
          lb.players.foldl (fun m p => alistDelete m p.id) st.disconnectedPlayers,
        lobbies := alistDelete st.lobbies lobbyId }

/-- `LobbyManager.validateLobby(lobbyId)`: cleanup and report `null` when
the lobby is empty or its session is completed. -/
def validateLobby (st : LMState) (lobbyId : String) : LMState × Option Lobby :=
  match alistGet st.lobbies lobbyId with
  | none => (st, none)
  | some lb =>
    if lb.players.isEmpty ||
        (match lb.session with | some sess => sess.isCompleted | none => false) then
      (cleanupLobby st lobbyId, none)
    else (st, some lb)

/-- `GAME_CONFIG.TIMERS.RECONNECT` in milliseconds. -/
def RECONNECT_WINDOW_MS : Nat := 120000

/-- The 2-second opponent-notification grace delay in milliseconds. -/
def NOTIFY_DELAY_MS : Nat := 2000

/-- `LobbyManager.handleDisconnect(socket)`: resolve the lobby and player;
without a session just drop the player; with a session, the reveal phase
(read through `previousPhase || phase`) gets the silent treatment (track
with a 120 s expiry, no pause, no notification), everything else pauses the
session, tracks with expiry plus a delayed opponent notification, and a
both-disconnected roster completes the session and cleans up. -/
def handleDisconnect (st : LMState) (socketId : String) (now : Nat) :
    LMState × List GameEvent × List Deferred :=
  match alistGet st.playerToLobby socketId with
  | none => (st, [], [])
  | some lobbyId =>
    match validateLobby st lobbyId with
    | (st1, none) =>
      ({ st1 with playerToLobby := alistDelete st1.playerToLobby socketId }, [], [])
    | (st1, some lb) =>
      match lb.players.find? (fun p => p.socketId == socketId) with
      | none =>
        ({ st1 with playerToLobby := alistDelete st1.playerToLobby socketId }, [], [])
      | some player =>
        match lb.session with
        | none =>
          let lb1 := { lb with players := lb.players.filter (fun p => p.id != player.id) }
          let st2 :=
            { st1 with
                lobbies := alistSet st1.lobbies lobbyId lb1,
                playerToLobby := alistDelete st1.playerToLobby socketId }
          if lb1.players.isEmpty then (cleanupLobby st2 lobbyId, [], [])
          else (st2, [], [])
        | some sess =>
          let currentPhase := sess.previousPhase.getD sess.phase
          if currentPhase = GamePhase.reveal then
            let p1 := { player with disconnected := true, disconnectedAt := some now }
            let lb1 := lb.updatePlayer p1
            ({ st1 with
                lobbies := alistSet st1.lobbies lobbyId lb1,
                playerToLobby := alistDelete st1.playerToLobby socketId,
                disconnectedPlayers :=
                  alistSet st1.disconnectedPlayers player.id ⟨lobbyId, now, false⟩ },
             [],
             [Deferred.reconnectTimeout player.id lobbyId RECONNECT_WINDOW_MS])
          else
            let p1 := { player with disconnected := true, disconnectedAt := some now }
            let lb1 := (lb.updatePlayer p1).mapSession SessionState.pause
            let otherOpt := lb1.players.find? (fun p => p.id != player.id)
            let notifies :=
              match otherOpt with
              | some other =>
                if !other.disconnected then
                  [Deferred.notifyOpponentDisconnected player.id other.socketId NOTIFY_DELAY_MS]
                else []
              | none => []
            let entry : DisconnectInfo := ⟨lobbyId, now, !notifies.isEmpty⟩
            let st2 :=
              { st1 with
                  lobbies := alistSet st1.lobbies lobbyId lb1,
                  playerToLobby := alistDelete st1.playerToLobby socketId,
                  disconnectedPlayers := alistSet st1.disconnectedPlayers player.id entry }
            let deferreds :=
              Deferred.reconnectTimeout player.id lobbyId RECONNECT_WINDOW_MS :: notifies
            if lb1.players.all (fun p => p.disconnected) then
              let lb2 := lb1.mapSession
                (fun sess2 => { sess2 with completed := true, timer := none })
              let st3 := { st2 with lobbies := alistSet st2.lobbies lobbyId lb2 }
              (cleanupLobby st3 lobbyId, [], deferreds)
            else (st2, [], deferreds)

/-- `LobbyManager.getRemainingReconnectTime(playerId)` at wall-clock `now`
(milliseconds): 120 when untracked (or with a zero timestamp, mirroring the
JS falsiness test), else the window minus the elapsed whole seconds,
floored at zero by the truncated subtraction. -/
def getRemainingReconnectTime (st : LMState) (playerId : String) (now : Nat) : Nat :=
  match alistGet st.disconnectedPlayers playerId with
  | none => 120
  | some info =>
    if info.disconnectedAt = 0 then 120
    else 120 - ((now - info.disconnectedAt) / 1000)

/-- `LobbyManager.handleReconnectTimeout(playerId, lobbyId)`: if the lobby
and player still exist, end the session (when present) in favour of the
other player, then clear the tracking entry and clean the lobby up.  `none`
models the JS crash inside `endGameByDisconnect`. -/
def handleReconnectTimeout (st : LMState) (playerId lobbyId : String) :
    Option (LMState × List GameEvent) :=
  match alistGet st.lobbies lobbyId with
  | none => some (st, [])
  | some lb =>
    match lb.players.find? (fun p => p.id == playerId) with
    | none => some (st, [])
    | some _player =>
      match lb.session with
      | some sess =>
        match lb.players.find? (fun p => p.id != playerId) with
        | some other =>
          match sess.endGameByDisconnect other.id with
          | none => none
          | some (sess2, events) =>
            let lb1 := { lb with session := some sess2 }
            let st1 :=
              { st with
                  lobbies := alistSet st.lobbies lobbyId lb1,
                  disconnectedPlayers := alistDelete st.disconnectedPlayers playerId }
            some (cleanupLobby st1 lobbyId, events)
        | none =>
          let st1 :=
            { st with disconnectedPlayers := alistDelete st.disconnectedPlayers playerId }
          some (cleanupLobby st1 lobbyId, [])
      | none =>
        let st1 :=
          { st with disconnectedPlayers := alistDelete st.disconnectedPlayers playerId }
        some (cleanupLobby st1 lobbyId, [])

/-- `LobbyManager.handleReconnect(socket, lobbyId, playerId)`: the guard
chain (tracking entry present and for this lobby, lobby valid, player and
opponent on the roster), then rebinding of the connection and either a
session resume with opponent notification or, with the opponent still away,
a snapshot plus an `opponentDisconnected` overlay carrying the opponent's
remaining budget.  `none` models the JS crash inside `resume`. -/
def handleReconnect (st : LMState) (socketId lobbyId playerId : String) (now : Nat) :
    Option (LMState × List GameEvent × List Deferred) :=
  match alistGet st.disconnectedPlayers playerId with
  | none => some (st, [GameEvent.errorMessage socketId "Invalid reconnection attempt"], [])
  | some info =>
    if info.lobbyId ≠ lobbyId then
      some (st, [GameEvent.errorMessage socketId "Invalid reconnection attempt"], [])
    else
      match validateLobby st lobbyId with
      | (st1, none) =>
        some ({ st1 with
                  disconnectedPlayers := alistDelete st1.disconnectedPlayers playerId },
          [GameEvent.errorMessage socketId "Lobby no longer exists"], [])
      | (st1, some lb) =>
        match lb.players.find? (fun p => p.id == playerId) with
        | none =>
          some ({ st1 with
                    disconnectedPlayers := alistDelete st1.disconnectedPlayers playerId },
            [GameEvent.errorMessage socketId "Player not found"], [])
        | some player =>
          match lb.players.find? (fun p => p.id != playerId) with
          | none =>
            let st2 :=
              { st1 with disconnectedPlayers := alistDelete st1.disconnectedPlayers playerId }
            some (cleanupLobby st2 lobbyId,
              [GameEvent.errorMessage socketId "Opponent left the game"], [])
          | some other =>
            let st2 :=
              { st1 with disconnectedPlayers := alistDelete st1.disconnectedPlayers playerId }
            let p1 :=
              { player with socketId := socketId, disconnected := false, disconnectedAt := none }
            let lb1 := lb.updatePlayer p1
            let st3 :=
              { st2 with
                  lobbies := alistSet st2.lobbies lobbyId lb1,
                  playerToLobby := alistSet st2.playerToLobby socketId lobbyId }
            match lb1.session with
            | none => some (st3, [], [])
            | some sess =>
              if !other.disconnected then
                match sess.resume with
                | none => none
                | some (sess2, resumeEvents, ds) =>
                  let lb2 := { lb1 with session := some sess2 }
                  let st4 := { st3 with lobbies := alistSet st3.lobbies lobbyId lb2 }
                  some (st4,
                    GameEvent.reconnectedSnapshot socketId ::
                      resumeEvents ++ [GameEvent.opponentReconnected other.socketId],
                    ds)
              else
                some (st3,
                  [GameEvent.reconnectedSnapshot socketId,
                   GameEvent.opponentDisconnected socketId
                     (getRemainingReconnectTime st2 other.id now)],
                  [])

/-! ### Association-list lemmas -/

theorem alistGet_set_self {α : Type} (l : List (String × α)) (k : String) (v : α) :
    alistGet (alistSet l k v) k = some v := by
  unfold alistGet alistSet
  rw [List.find?_cons_of_pos]
  · rfl
  · simp

theorem alistGet_delete_self {α : Type} (l : List (String × α)) (k : String) :
    alistGet (alistDelete l k) k = none := by
  unfold alistGet alistDelete
  rw [List.find?_eq_none.mpr]
  · rfl
  · intro x hx
    have hmem := List.of_mem_filter hx
    simp at hmem
    simp [hmem]

theorem alistGet_delete_none {α : Type} {l : List (String × α)} {k : String} (q : String)
    (h : alistGet l k = none) : alistGet (alistDelete l q) k = none := by
  unfold alistGet alistDelete at *
  rw [Option.map_eq_none'] at h ⊢
  rw [List.find?_eq_none] at h ⊢
  intro x hx
  exact h x (List.mem_of_mem_filter hx)

theorem alistGet_foldl_delete_none {α β : Type} (f : β → String)
    (ps : List β) (m : List (String × α)) (k : String)
    (h : alistGet m k = none) :
    alistGet (ps.foldl (fun acc p => alistDelete acc (f p)) m) k = none := by
  induction ps generalizing m with
  | nil => exact h
  | cons p t ih => exact ih (alistDelete m (f p)) (alistGet_delete_none (f p) h)

theorem setPlayer_frame (s : SessionState) (p : Player) :
    (s.setPlayer p).phase = s.phase ∧ (s.setPlayer p).previousPhase = s.previousPhase ∧
    (s.setPlayer p).timer = s.timer ∧ (s.setPlayer p).paused = s.paused := by
  unfold SessionState.setPlayer
  split_ifs <;> exact ⟨rfl, rfl, rfl, rfl⟩


/-! ### Claim C6: reveal-phase disconnects are silent -/

/-- C6: when a connection drops while the session's effective phase
(`previousPhase || phase`) is reveal, the session is not paused — the phase,
saved phase, timer and pause flag all stay as they were — no event at all is
emitted (in particular no `opponentDisconnected`), and a silent tracking
entry without a notify timer is created whose 120-second expiry schedules
`handleReconnectTimeout`, so non-return still ends the session by
disconnect; the socket-to-lobby binding is dropped. -/
theorem c6_reveal_disconnect (st : LMState) (socketId : String) (now : Nat)
    (lobbyId : String) (lb : Lobby) (player : Player) (sess : SessionState)
    (hmap : alistGet st.playerToLobby socketId = some lobbyId)
    (hlb : alistGet st.lobbies lobbyId = some lb)
    (hnonempty : lb.players.isEmpty = false)
    (hsess : lb.session = some sess)
    (hncomp : sess.isCompleted = false)
    (hfind : lb.players.find? (fun p => p.socketId == socketId) = some player)
    (hphase : sess.previousPhase.getD sess.phase = GamePhase.reveal) :
    ∃ st' : LMState,
      handleDisconnect st socketId now =
        (st', [], [Deferred.reconnectTimeout player.id lobbyId RECONNECT_WINDOW_MS]) ∧
      (∃ lb' sess', alistGet st'.lobbies lobbyId = some lb' ∧ lb'.session = some sess' ∧
        sess'.phase = sess.phase ∧ sess'.previousPhase = sess.previousPhase ∧
        sess'.timer = sess.timer ∧ sess'.paused = sess.paused) ∧
      alistGet st'.disconnectedPlayers player.id = some ⟨lobbyId, now, false⟩ ∧
      alistGet st'.playerToLobby socketId = none := by
  have hval : validateLobby st lobbyId = (st, some lb) := by
    unfold validateLobby
    rw [hlb]
    dsimp only
    rw [if_neg]
    simp [hnonempty, hsess, hncomp]
  unfold handleDisconnect
  rw [hmap]
  dsimp only
  rw [hval]
  dsimp only
  rw [hfind]
  dsimp only
  rw [hsess]
  dsimp only
  rw [if_pos hphase]
  refine ⟨_, rfl, ?_, ?_, ?_⟩
  · refine ⟨_, sess.setPlayer { player with disconnected := true, disconnectedAt := some now },
      alistGet_set_self _ _ _, ?_, ?_, ?_, ?_, ?_⟩
    · show (Lobby.updatePlayer lb _).session = some _
      unfold Lobby.updatePlayer
      dsimp only
      rw [hsess]
      rfl
    · exact (setPlayer_frame sess _).1
    · exact (setPlayer_frame sess _).2.1
    · exact (setPlayer_frame sess _).2.2.1
    · exact (setPlayer_frame sess _).2.2.2
  · exact alistGet_set_self _ _ _
  · exact alistGet_delete_self _ _

/-- Players of the concrete lobby used by the C6 witness. -/
def c6Player1 : Player :=
  { id := "p1", socketId := "s1", name := "A",
    hand := [⟨"a", .rock⟩, ⟨"b", .rock⟩, ⟨"c", .rock⟩,
             ⟨"d", .paper⟩, ⟨"e", .paper⟩, ⟨"f", .scissors⟩],
    sequence := [⟨"a", .rock⟩, ⟨"b", .rock⟩, ⟨"c", .rock⟩,
                 ⟨"d", .paper⟩, ⟨"e", .paper⟩, ⟨"f", .scissors⟩],
    sequenceSet := true }

/-- Second player of the C6 witness lobby (the one that disconnects). -/
def c6Player2 : Player :=
  { id := "p2", socketId := "s2", name := "B",
    hand := [⟨"g", .paper⟩, ⟨"h", .paper⟩, ⟨"i", .paper⟩,
             ⟨"j", .scissors⟩, ⟨"k", .scissors⟩, ⟨"l", .rock⟩],
    sequence := [⟨"g", .paper⟩, ⟨"h", .paper⟩, ⟨"i", .paper⟩,
                 ⟨"j", .scissors⟩, ⟨"k", .scissors⟩, ⟨"l", .rock⟩],
    sequenceSet := true }

/-- Reveal-phase session of the C6 witness lobby. -/
def c6Sess : SessionState :=
  { player1 := c6Player1, player2 := c6Player2, lobbyId := "ABCDEF",
    currentRound := 1, phase := .reveal, timer := some (TimerSpec.fresh 5),
    roundHistory := [] }

/-- The C6 witness lobby and registry state. -/
def c6LM : LMState :=
  { lobbies := [("ABCDEF",
      { players := [c6Player1, c6Player2], session := some c6Sess,
        createdAt := 0, allowedPlayerIds := ["p1", "p2"] })],
    playerToLobby := [("s1", "ABCDEF"), ("s2", "ABCDEF")],
    disconnectedPlayers := [] }

/-- C6 witness: player 2 dropping during the concrete reveal produces no
events and only the silent 120 s tracking timeout. -/
theorem c6_reveal_disconnect_witness :
    ∃ st', handleDisconnect c6LM "s2" 5000 =
      (st', [], [Deferred.reconnectTimeout "p2" "ABCDEF" RECONNECT_WINDOW_MS]) := by
  obtain ⟨st', heq, -, -, -⟩ := c6_reveal_disconnect c6LM "s2" 5000 "ABCDEF"
    { players := [c6Player1, c6Player2], session := some c6Sess,
      createdAt := 0, allowedPlayerIds := ["p1", "p2"] }
    c6Player2 c6Sess (by decide) (by decide) (by decide) rfl (by decide) (by decide) rfl
  exact ⟨st', heq⟩


/-! ### Claim C7: end of game on reconnect-window expiry -/

/-- Session for the C7 counterexample and witness: player 2 has been
disconnected past their window, player 1 is still connected. -/
def c7Sess : SessionState :=
  { player1 :=
      { id := "p1", socketId := "s1", name := "A",
        hand := [⟨"a", .rock⟩, ⟨"b", .rock⟩, ⟨"c", .rock⟩,
                 ⟨"d", .paper⟩, ⟨"e", .paper⟩, ⟨"f", .scissors⟩],
        sequence := [⟨"a", .rock⟩, ⟨"b", .rock⟩, ⟨"c", .rock⟩,
                     ⟨"d", .paper⟩, ⟨"e", .paper⟩, ⟨"f", .scissors⟩],
        sequenceSet := true },
    player2 :=
      { id := "p2", socketId := "s2", name := "B",
        hand := [⟨"g", .paper⟩, ⟨"h", .paper⟩, ⟨"i", .paper⟩,
                 ⟨"j", .scissors⟩, ⟨"k", .scissors⟩, ⟨"l", .rock⟩],
        sequence := [⟨"g", .paper⟩, ⟨"h", .paper⟩, ⟨"i", .paper⟩,
                     ⟨"j", .scissors⟩, ⟨"k", .scissors⟩, ⟨"l", .rock⟩],
        sequenceSet := true, disconnected := true, disconnectedAt := some 1000 },
    lobbyId := "ABCDEF", currentRound := 2, phase := .paused,
    previousPhase := some .swap, paused := true,
    timer := some ⟨20, 12, true⟩ }

/-- C7 counterexample: ending the game by disconnect in favour of player 1
emits exactly one `gameEnd` — the disconnected loser receives none, so it is
not the case that "both sides receive a terminal gameEnd event". -/
theorem c7_end_by_disconnect_counterexample :
    (c7Sess.endGameByDisconnect "p1").map (fun r => r.2) =
      some [GameEvent.gameEnd "s1" (some "p1") true true] ∧
    c7Sess.player2.disconnected = true := by decide

/-- C7 (amended): when a player's reconnection window expires while the
lobby, the player and an opponent still exist and a session is present, the
opponent is declared the winner: the session becomes `game_over`, is marked
completed and its timer is cleared; the winner receives a `gameEnd` flagged
`byDisconnect` with `youWon = true`, while the loser receives the
corresponding losing `gameEnd` **only if they are currently connected** (a
disconnected loser gets nothing); afterwards the tracking entry is removed
and the lobby is cleaned up. -/
theorem c7_end_by_disconnect (st : LMState) (playerId lobbyId : String)
    (lb : Lobby) (dcPlayer other : Player) (sess : SessionState) (w l : Player)
    (hlb : alistGet st.lobbies lobbyId = some lb)
    (hfind : lb.players.find? (fun p => p.id == playerId) = some dcPlayer)
    (hsess : lb.session = some sess)
    (hother : lb.players.find? (fun p => p.id != playerId) = some other)
    (hw : sess.getPlayer other.id = some w)
    (hl : sess.getOpponent other.id = some l) :
    ∃ st' : LMState,
      handleReconnectTimeout st playerId lobbyId =
        some (st',
          GameEvent.gameEnd w.socketId (some other.id) true true ::
            (if l.disconnected then []
             else [GameEvent.gameEnd l.socketId (some other.id) false true])) ∧
      alistGet st'.lobbies lobbyId = none ∧
      alistGet st'.disconnectedPlayers playerId = none ∧
      (sess.endGameByDisconnect other.id).map
          (fun r => (r.1.phase, r.1.completed, r.1.timer)) =
        some (GamePhase.game_over, true, none) := by
  have hend : sess.endGameByDisconnect other.id =
      some ({ sess with phase := GamePhase.game_over, completed := true, timer := none },
        GameEvent.gameEnd w.socketId (some other.id) true true ::
          (if l.disconnected then []
           else [GameEvent.gameEnd l.socketId (some other.id) false true])) := by
    unfold SessionState.endGameByDisconnect
    rw [hw, hl]
  unfold handleReconnectTimeout
  rw [hlb]
  dsimp only
  rw [hfind]
  dsimp only
  rw [hsess]
  dsimp only
  rw [hother]
  dsimp only
  rw [hend]
  dsimp only
  refine ⟨_, rfl, ?_, ?_, ?_⟩
  · unfold cleanupLobby
    rw [alistGet_set_self]
    dsimp only
    exact alistGet_delete_self _ _
  · unfold cleanupLobby
    rw [alistGet_set_self]
    dsimp only
    exact alistGet_foldl_delete_none _ _ _ _ (alistGet_delete_self _ _)
  · rfl

/-- The C7 witness registry: the lobby with the expired player 2. -/
def c7LM : LMState :=
  { lobbies := [("ABCDEF",
      { players := [c7Sess.player1, c7Sess.player2], session := some c7Sess,
        createdAt := 0, allowedPlayerIds := ["p1", "p2"] })],
    playerToLobby := [("s1", "ABCDEF")],
    disconnectedPlayers := [("p2", ⟨"ABCDEF", 1000, true⟩)] }

/-- C7 witness: the expiry of player 2's window in the concrete registry
ends the game for player 1 with a single `byDisconnect` `gameEnd` and
removes lobby and tracking entry. -/
theorem c7_end_by_disconnect_witness :
    ∃ st', handleReconnectTimeout c7LM "p2" "ABCDEF" =
        some (st', [GameEvent.gameEnd "s1" (some "p1") true true]) ∧
      alistGet st'.lobbies "ABCDEF" = none := by
  obtain ⟨st', heq, hlob, -, -⟩ := c7_end_by_disconnect c7LM "p2" "ABCDEF"
    { players := [c7Sess.player1, c7Sess.player2], session := some c7Sess,
      createdAt := 0, allowedPlayerIds := ["p1", "p2"] }
    c7Sess.player2 c7Sess.player1 c7Sess c7Sess.player1 c7Sess.player2
    (by decide) (by decide) rfl (by decide) (by decide) (by decide)
  exact ⟨st', heq, hlob⟩


/-! ### Claim C8: invalid reconnection attempts are rejected untouched -/

/-- C8: an explicit reconnect whose player id has no tracking entry, or
whose entry records a different lobby id, is answered with the error event
`"Invalid reconnection attempt"` and the returned registry state is exactly
the input state — no lobby, session, player or tracking entry is mutated and
nothing is scheduled. -/
theorem c8_invalid_reconnect (st : LMState) (socketId lobbyId playerId : String) (now : Nat)
    (h : alistGet st.disconnectedPlayers playerId = none ∨
      (∃ info, alistGet st.disconnectedPlayers playerId = some info ∧
        info.lobbyId ≠ lobbyId)) :
    handleReconnect st socketId lobbyId playerId now =
      some (st, [GameEvent.errorMessage socketId "Invalid reconnection attempt"], []) := by
  unfold handleReconnect
  rcases h with h | ⟨info, hinfo, hne⟩
  · rw [h]
  · rw [hinfo]
    dsimp only
    rw [if_pos hne]

/-- Registry used by the C8 witness: one tracked player in lobby "ABCDEF". -/
def c8LM : LMState :=
  { lobbies := [],
    playerToLobby := [],
    disconnectedPlayers := [("p2", ⟨"ABCDEF", 1000, false⟩)] }

/-- C8 witness: an unknown player id and a lobby mismatch are both rejected
with the exact error and an unchanged registry. -/
theorem c8_invalid_reconnect_witness :
    handleReconnect c8LM "sX" "ABCDEF" "p9" 0 =
      some (c8LM, [GameEvent.errorMessage "sX" "Invalid reconnection attempt"], []) ∧
    handleReconnect c8LM "sY" "GGGGGG" "p2" 0 =
      some (c8LM, [GameEvent.errorMessage "sY" "Invalid reconnection attempt"], []) := by
  constructor
  · exact c8_invalid_reconnect c8LM "sX" "ABCDEF" "p9" 0 (Or.inl (by decide))
  · exact c8_invalid_reconnect c8LM "sY" "GGGGGG" "p2" 0
      (Or.inr ⟨⟨"ABCDEF", 1000, false⟩, by decide, by decide⟩)


/-! ### Claim C9: lobby id generation and validation -/

/-- JS `String.toUpperCase()` restricted to the ASCII range the server ever
produces or compares. -/
def jsToUpper (s : String) : String := String.mk (s.toList.map Char.toUpper)

/-- JS `String.trim()` (ASCII whitespace). -/
def jsTrim (s : String) : String :=
  String.mk (((s.toList.dropWhile (fun c => c.isWhitespace)).reverse.dropWhile
    (fun c => c.isWhitespace)).reverse)

/-- The generator alphabet of `generateLobbyId` (no 0/O, 1/I/L). -/
def LOBBY_ID_CHARS : List Char := "ABCDEFGHJKLMNPQRSTUVWXYZ23456789".toList

theorem lobby_id_chars_length : LOBBY_ID_CHARS.length = 32 := by decide

/-- One six-character sample of `generateLobbyId`: `picks` is the stream of
`Math.floor(Math.random() * chars.length)` draws, attempt `k` consuming
draws `6k..6k+5`. -/
def lobbyIdAttempt (picks : Nat → Fin 32) (k : Nat) : String :=
  String.mk ((List.range 6).map
    (fun i => LOBBY_ID_CHARS.get (Fin.cast lobby_id_chars_length.symm (picks (6 * k + i)))))

/-- `LobbyManager.generateLobbyId()`: rejection sampling against the current
registry.  The JS recursion has no termination bound; `fuel` makes it total,
with `none` for exhausted fuel (the JS would still be retrying). -/
def generateLobbyId (lobbies : List (String × Lobby)) (picks : Nat → Fin 32) :
    Nat → Nat → Option String
  | 0, _ => none
  | fuel + 1, k =>
    if (alistGet lobbies (lobbyIdAttempt picks k)).isSome then
      generateLobbyId lobbies picks fuel (k + 1)
    else some (lobbyIdAttempt picks k)

/-- `InputValidator.lobbyId(lobbyId)`: trim, uppercase, then the regex
`^[A-Z0-9]{6}$`. -/
def InputValidator.lobbyId (s : String) : Option String :=
  let trimmed := jsToUpper (jsTrim s)
  if trimmed.length == 6 &&
      trimmed.toList.all (fun c => ('A' ≤ c && c ≤ 'Z') || ('0' ≤ c && c ≤ '9')) then
    some trimmed
  else none

/-- C9 counterexample: the validator accepts `"000000"`, whose characters do
not belong to the ambiguity-free generator alphabet — so the validator does
**not** accept exactly the six-character strings over that alphabet. -/
theorem c9_lobby_id_counterexample :
    InputValidator.lobbyId "000000" = some "000000" ∧
    ¬ ('0' ∈ LOBBY_ID_CHARS) := by decide

/-- C9 (amended): every lobby id the generator returns has six characters,
each drawn from the ambiguity-free alphabet, and differs from every key in
the registry; the validator, after trimming and uppercasing its input,
accepts exactly the six-character strings of uppercase ASCII letters
**or digits** (the full `[A-Z0-9]` class, strictly larger than the
generator's alphabet). -/
theorem c9_lobby_id_generation (lobbies : List (String × Lobby)) (picks : Nat → Fin 32) :
    (∀ fuel k id, generateLobbyId lobbies picks fuel k = some id →
      id.length = 6 ∧ (∀ c ∈ id.toList, c ∈ LOBBY_ID_CHARS) ∧
        ∀ kv ∈ lobbies, kv.1 ≠ id)
    ∧ (∀ s t, InputValidator.lobbyId s = some t ↔
        (t = jsToUpper (jsTrim s) ∧ t.length = 6 ∧
          ∀ c ∈ t.toList, ('A' ≤ c ∧ c ≤ 'Z') ∨ ('0' ≤ c ∧ c ≤ '9'))) := by
  constructor
  · intro fuel
    induction fuel with
    | zero =>
      intro k id h
      exact Option.noConfusion h
    | succ n ih =>
      intro k id h
      unfold generateLobbyId at h
      by_cases hcoll : (alistGet lobbies (lobbyIdAttempt picks k)).isSome
      · rw [if_pos hcoll] at h
        exact ih (k + 1) id h
      · rw [if_neg hcoll] at h
        obtain rfl : lobbyIdAttempt picks k = id := by injection h
        refine ⟨by simp [lobbyIdAttempt, String.length], ?_, ?_⟩
        · intro c hc
          simp only [lobbyIdAttempt] at hc
          rw [show (String.mk ((List.range 6).map (fun i =>
              LOBBY_ID_CHARS.get (Fin.cast lobby_id_chars_length.symm
                (picks (6 * k + i)))))).toList
              = (List.range 6).map (fun i =>
                LOBBY_ID_CHARS.get (Fin.cast lobby_id_chars_length.symm
                  (picks (6 * k + i)))) from rfl] at hc
          simp at hc
          obtain ⟨i, -, rfl⟩ := hc
          exact List.getElem_mem _
        · intro kv hkv heq
          have hnone : alistGet lobbies (lobbyIdAttempt picks k) = none :=
            Option.not_isSome_iff_eq_none.mp hcoll
          unfold alistGet at hnone
          rw [Option.map_eq_none'] at hnone
          rw [List.find?_eq_none] at hnone
          exact hnone kv hkv (by simp [heq])
  · intro s t
    unfold InputValidator.lobbyId
    dsimp only
    by_cases hc : ((jsToUpper (jsTrim s)).length == 6 &&
        (jsToUpper (jsTrim s)).toList.all
          (fun c => ('A' ≤ c && c ≤ 'Z') || ('0' ≤ c && c ≤ '9'))) = true
    · rw [if_pos hc]
      simp only [Bool.and_eq_true, beq_iff_eq, List.all_eq_true, Bool.or_eq_true,
        decide_eq_true_eq] at hc
      constructor
      · intro h
        obtain rfl : jsToUpper (jsTrim s) = t := by injection h
        exact ⟨rfl, hc.1, hc.2⟩
      · rintro ⟨rfl, -, -⟩
        rfl
    · rw [if_neg hc]
      simp only [Bool.and_eq_true, beq_iff_eq, List.all_eq_true, Bool.or_eq_true,
        decide_eq_true_eq] at hc
      constructor
      · intro h
        exact Option.noConfusion h
      · rintro ⟨rfl, h1, h2⟩
        exact absurd ⟨h1, h2⟩ hc

/-- C9 witness: with every random draw hitting index 0, the generator
produces `"AAAAAA"` against an empty registry, a six-character string over
the alphabet; and the validator accepts lowercase `"abcdef"` as `"ABCDEF"`. -/
theorem c9_lobby_id_generation_witness :
    generateLobbyId [] (fun _ => ⟨0, by omega⟩) 1 0 = some "AAAAAA" ∧
    ("AAAAAA" : String).length = 6 ∧
    InputValidator.lobbyId " abcdef " = some "ABCDEF" := by
  have h := c9_lobby_id_generation [] (fun _ => ⟨0, by omega⟩)
  have hgen : generateLobbyId [] (fun _ => ⟨0, by omega⟩) 1 0 = some "AAAAAA" := by decide
  have hlen := (h.1 1 0 "AAAAAA" hgen).1
  have hval := (h.2 " abcdef " "ABCDEF").mpr (by decide)
  exact ⟨hgen, hlen, hval⟩

end RPS
